import Mathlib

/-!
Shallow embedding of `internal/state/rollback.go` from sei-tendermint.

The Go function `Rollback(bs BlockStore, ss Store, removeBlock bool,
privValidatorConfig *config.PrivValidatorConfig) (int64, []byte, error)`
repairs a crash-inconsistent pair of stores.  The stores are external
collaborators (interfaces); here they are modelled as finite environments
recording what each query returns, and the mutations the function performs
(state save, latest-block deletion, signing-checkpoint load/reset) are
recorded in an explicit effect trace.
-/

namespace SeiRollback

/-- Model of Go `[]byte`. -/
abbrev Bytes := List Nat

instance {ε α : Type} [DecidableEq ε] [DecidableEq α] : DecidableEq (Except ε α) := fun a b =>
  match a, b with
  | .error e, .error e' =>
    if h : e = e' then .isTrue (congrArg Except.error h)
    else .isFalse (fun hh => h (Except.error.inj hh))
  | .error _, .ok _ => .isFalse (fun hh => Except.noConfusion hh)
  | .ok _, .error _ => .isFalse (fun hh => Except.noConfusion hh)
  | .ok v, .ok v' =>
    if h : v = v' then .isTrue (congrArg Except.ok h)
    else .isFalse (fun hh => h (Except.ok.inj hh))

/-- Opaque validator-set record; `Rollback` only moves these around. -/
structure ValidatorSet where
  rep : Nat
deriving DecidableEq

/-- Opaque block identifier; `Rollback` only copies it. -/
structure BlockID where
  rep : Nat
deriving DecidableEq

/-- The header fields of a block meta that `Rollback` reads:
`Height`, `Time`, `AppHash`, `LastResultsHash`. -/
structure Header where
  height : Int
  time : Int
  appHash : Bytes
  lastResultsHash : Bytes
deriving DecidableEq

/-- Model of `types.BlockMeta`: block id plus header. -/
structure BlockMeta where
  blockID : BlockID
  header : Header
deriving DecidableEq

/-- The `Version` sub-record of consensus parameters (`AppVersion` is the
only field `Rollback` reads). -/
structure VersionParams where
  appVersion : Nat
deriving DecidableEq

/-- Consensus parameters: the version sub-record read by `Rollback` plus an
opaque token for the remaining (untouched) parameter fields. -/
structure ConsensusParams where
  version : VersionParams
  rest : Nat
deriving DecidableEq

/-- Model of `version.Consensus`: block protocol and app version numbers. -/
structure ConsensusVersion where
  block : Nat
  app : Nat
deriving DecidableEq

/-- Model of `state.Version`: consensus version plus software version string. -/
structure Version where
  consensus : ConsensusVersion
  software : String
deriving DecidableEq

/-- Modelled from the spec: the fixed build-configuration block-protocol
constant (`version.BlockProtocol`, defined outside `src/`); the concrete
value is irrelevant to every claim. -/
def BlockProtocol : Nat := 11

/-- Modelled from the spec: the fixed build-configuration software version
(`version.TMVersion`, defined outside `src/`); the concrete value is
irrelevant to every claim. -/
def TMVersion : String := "0.35.0"

/-- Model of `state.State`, restricted to the fields `Rollback` reads or writes.
The three validator-set fields are Go pointers, hence `Option`. -/
structure State where
  version : Version
  chainID : String
  initialHeight : Int
  lastBlockHeight : Int
  lastBlockID : BlockID
  lastBlockTime : Int
  lastResultsHash : Bytes
  appHash : Bytes
  validators : Option ValidatorSet
  nextValidators : Option ValidatorSet
  lastValidators : Option ValidatorSet
  lastHeightValidatorsChanged : Int
  consensusParams : ConsensusParams
  lastHeightConsensusParamsChanged : Int
deriving DecidableEq

/-- Modelled from the spec: `State.IsEmpty` (defined in `state.go`, outside
`src/`) detects a never-initialized state ("Fails with `NotFound` if absent
or empty (never initialized)"); a never-initialized state has no validator
set. -/
def State.IsEmpty (s : State) : Bool := s.validators.isNone

/-- Structured model of the Go `error` values produced or propagated by
`Rollback`; `env` stands for an opaque error returned by a collaborator. -/
inductive GoError where
  | env (tag : Nat)
  | noStateFound
  | removeFinalBlockFailed (cause : GoError)
  | invariantViolation (stateHeight blockHeight : Int)
  | blockNotFound (height : Int)
  | valSetNotFound (height : Int)
  | paramsNotFound (height : Int)
  | saveFailed (cause : GoError)
  | loadPrivValFailed (cause : GoError)
  | resetPrivValFailed (cause : GoError)
deriving DecidableEq

/-- Association-list lookup keyed by height. -/
def lookupHeight {α : Type} : List (Int × α) → Int → Option α
  | [], _ => none
  | (k, v) :: rest, h => if k = h then some v else lookupHeight rest h

/-- Environment model of the `BlockStore` collaborator: its reported height,
the block metas it can load, and whether `DeleteLatestBlock` would fail. -/
structure BlockStore where
  height : Int
  metas : List (Int × BlockMeta)
  deleteLatestResult : Option GoError
deriving DecidableEq

/-- Model of `bs.LoadBlockMeta(height)`: `nil` when no meta is stored at `height`. -/
def BlockStore.LoadBlockMeta (bs : BlockStore) (h : Int) : Option BlockMeta :=
  lookupHeight bs.metas h

/-- Environment model of the state-store collaborator: what `Load` returns,
the historical validator sets and consensus parameters, and whether `Save`
would fail. -/
structure Store where
  loadResult : Except GoError State
  validators : List (Int × ValidatorSet)
  consensusParams : List (Int × ConsensusParams)
  saveResult : Option GoError

/-- Model of `ss.Load()`. -/
def Store.Load (ss : Store) : Except GoError State := ss.loadResult

/-- Model of `ss.LoadValidators(height)`. -/
def Store.LoadValidators (ss : Store) (h : Int) : Except GoError ValidatorSet :=
  match lookupHeight ss.validators h with
  | some v => .ok v
  | none => .error (.valSetNotFound h)

/-- Model of `ss.LoadConsensusParams(height)`. -/
def Store.LoadConsensusParams (ss : Store) (h : Int) : Except GoError ConsensusParams :=
  match lookupHeight ss.consensusParams h with
  | some p => .ok p
  | none => .error (.paramsNotFound h)

/-- Model of `config.PrivValidatorConfig`: the key-file and state-file paths. -/
structure PrivValidatorConfig where
  keyFile : String
  stateFile : String
deriving DecidableEq

/-- Environment model of the signing-checkpoint file: whether
`privval.LoadFilePV` and `filePv.Reset()` would fail. -/
structure PrivValEnv where
  loadError : Option GoError
  resetError : Option GoError
deriving DecidableEq

/-- The observable mutations and checkpoint accesses `Rollback` performs,
in execution order. -/
inductive Effect where
  | saveState (s : State)
  | deleteLatestBlock
  | loadPrivVal
  | resetPrivVal
deriving DecidableEq

/-- Model of `resetPrivValidatorConfig` from `rollback.go`: load the file-backed
private validator, then reset it; either failure is wrapped and returned.
Returns the Go error result together with the checkpoint-access trace. -/
def resetPrivValidatorConfig (env : PrivValEnv) (_cfg : PrivValidatorConfig) :
    Option GoError × List Effect :=
  match env.loadError with
  | some e => (some (.loadPrivValFailed e), [.loadPrivVal])
  | none =>
    match env.resetError with
    | some e => (some (.resetPrivValFailed e), [.loadPrivVal, .resetPrivVal])
    | none => (none, [.loadPrivVal, .resetPrivVal])

/-- The Go return triple `(int64, []byte, error)`: the `[]byte` is `nil`
exactly when the `Option` is `none`. -/
structure RTriple where
  height : Int
  appHash : Option Bytes
  err : Option GoError
deriving DecidableEq

/-- The state literal built at lines 107-133 of `rollback.go`, factored out
verbatim: the two clamped change heights, the two hash temporaries (with
their cross-assignment into the `LastResultsHash` / `AppHash` fields exactly
as in the source), and the field-by-field construction. -/
def mkRolledBackState (invalidState : State) (rollbackBlock latestBlock : BlockMeta)
    (previousLastValidatorSet : ValidatorSet) (previousParams : ConsensusParams)
    (removeBlock : Bool) : State :=
  let rollbackHeight := invalidState.lastBlockHeight - 1
  let valChangeHeight :=
    if invalidState.lastHeightValidatorsChanged > rollbackHeight then rollbackHeight + 1
    else invalidState.lastHeightValidatorsChanged
  let paramsChangeHeight :=
    if invalidState.lastHeightConsensusParamsChanged > rollbackHeight then rollbackHeight + 1
    else invalidState.lastHeightConsensusParamsChanged
  let rolledBackAppHash :=
    if removeBlock then rollbackBlock.header.appHash else latestBlock.header.lastResultsHash
  let rolledBackLastResultHash :=
    if removeBlock then rollbackBlock.header.lastResultsHash else latestBlock.header.appHash
  { version := { consensus := { block := BlockProtocol,
                                app := previousParams.version.appVersion },
                 software := TMVersion }
    chainID := invalidState.chainID
    initialHeight := invalidState.initialHeight
    lastBlockHeight := rollbackBlock.header.height
    lastBlockID := rollbackBlock.blockID
    lastBlockTime := rollbackBlock.header.time
    lastResultsHash := rolledBackAppHash
    appHash := rolledBackLastResultHash
    nextValidators := invalidState.validators
    validators := invalidState.lastValidators
    lastValidators := some previousLastValidatorSet
    lastHeightValidatorsChanged := valChangeHeight
    consensusParams := previousParams
    lastHeightConsensusParamsChanged := paramsChangeHeight }

/-- Model of `Rollback` from `rollback.go`.  The first component is `none` exactly
when the Go code would dereference a nil `privValidatorConfig` pointer
(a runtime panic, so no return triple exists); otherwise it is the return
triple.  The second component is the trace of mutations and checkpoint
accesses, in order. -/
def Rollback (bs : BlockStore) (ss : Store) (removeBlock : Bool)
    (privValidatorConfig : Option PrivValidatorConfig) (pvEnv : PrivValEnv) :
    Option RTriple × List Effect :=
  match ss.Load with
  | .error err => (some ⟨-1, none, some err⟩, [])
  | .ok invalidState =>
    if invalidState.IsEmpty then (some ⟨-1, none, some .noStateFound⟩, [])
    else
      let height := bs.height
      if height = invalidState.lastBlockHeight + 1 then
        if removeBlock then
          match bs.deleteLatestResult with
          | some err => (some ⟨-1, none, some (.removeFinalBlockFailed err)⟩,
                         [.deleteLatestBlock])
          | none => (some ⟨invalidState.lastBlockHeight, some invalidState.appHash, none⟩,
                     [.deleteLatestBlock])
        else
          (some ⟨invalidState.lastBlockHeight, some invalidState.appHash, none⟩, [])
      else if height ≠ invalidState.lastBlockHeight then
        (some ⟨-1, none, some (.invariantViolation invalidState.lastBlockHeight height)⟩, [])
      else
        let rollbackHeight := invalidState.lastBlockHeight - 1
        match bs.LoadBlockMeta rollbackHeight with
        | none => (some ⟨-1, none, some (.blockNotFound rollbackHeight)⟩, [])
        | some rollbackBlock =>
          match bs.LoadBlockMeta invalidState.lastBlockHeight with
          | none => (some ⟨-1, none, some (.blockNotFound invalidState.lastBlockHeight)⟩, [])
          | some latestBlock =>
            match ss.LoadValidators rollbackHeight with
            | .error err => (some ⟨-1, none, some err⟩, [])
            | .ok previousLastValidatorSet =>
              match ss.LoadConsensusParams (rollbackHeight + 1) with
              | .error err => (some ⟨-1, none, some err⟩, [])
              | .ok previousParams =>
                let rolledBackState := mkRolledBackState invalidState rollbackBlock
                  latestBlock previousLastValidatorSet previousParams removeBlock
                match ss.saveResult with
                | some err => (some ⟨-1, none, some (.saveFailed err)⟩,
                               [.saveState rolledBackState])
                | none =>
                  if removeBlock then
                    match bs.deleteLatestResult with
                    | some err => (some ⟨-1, none, some (.removeFinalBlockFailed err)⟩,
                                   [.saveState rolledBackState, .deleteLatestBlock])
                    | none =>
                      match privValidatorConfig with
                      | none => (none, [.saveState rolledBackState, .deleteLatestBlock])
                      | some cfg =>
                        match resetPrivValidatorConfig pvEnv cfg with
                        | (some err, es) =>
                          (some ⟨-1, none, some err⟩,
                           [.saveState rolledBackState, .deleteLatestBlock] ++ es)
                        | (none, es) =>
                          (some ⟨rolledBackState.lastBlockHeight,
                                 some rolledBackState.appHash, none⟩,
                           [.saveState rolledBackState, .deleteLatestBlock] ++ es)
                  else
                    (some ⟨rolledBackState.lastBlockHeight,
                           some rolledBackState.appHash, none⟩,
                     [.saveState rolledBackState])

/-- How a recorded effect changes the two stores: a state save replaces what
`Load` returns; deleting the latest block lowers the reported height by one
and drops the meta at the old height; checkpoint accesses touch neither
store. -/
def applyEffect (st : BlockStore × Store) (e : Effect) : BlockStore × Store :=
  match e with
  | .saveState s => (st.1, { st.2 with loadResult := .ok s })
  | .deleteLatestBlock =>
    ({ st.1 with height := st.1.height - 1,
                 metas := st.1.metas.filter (fun p => decide (p.1 ≠ st.1.height)) }, st.2)
  | .loadPrivVal => st
  | .resetPrivVal => st

/-- Replay a trace of effects over the two stores. -/
def applyEffects (es : List Effect) (st : BlockStore × Store) : BlockStore × Store :=
  es.foldl applyEffect st

/-! Concrete fixtures realizing the spec's example scenario (state height
100, blocks at 99 and 100, validators at 99, params effective at 100), used
by witnesses and the counterexample. All four hash byte strings are chosen
pairwise distinct so hash-selection mistakes are visible. -/

/-- Block meta at height 99 of the example scenario. -/
def meta99 : BlockMeta :=
  { blockID := ⟨99⟩,
    header := { height := 99, time := 990, appHash := [5, 6], lastResultsHash := [7, 8] } }

/-- Block meta at height 100 of the example scenario. -/
def meta100 : BlockMeta :=
  { blockID := ⟨100⟩,
    header := { height := 100, time := 1000, appHash := [1, 2], lastResultsHash := [3, 4] } }

/-- Consensus parameters effective at height 100 of the example scenario. -/
def params100 : ConsensusParams := { version := { appVersion := 7 }, rest := 42 }

/-- The loaded (invalid) state of the example scenario: height 100. -/
def s0 : State :=
  { version := { consensus := { block := BlockProtocol, app := 7 }, software := TMVersion }
    chainID := "sei-chain"
    initialHeight := 1
    lastBlockHeight := 100
    lastBlockID := ⟨100⟩
    lastBlockTime := 1000
    lastResultsHash := [3, 4]
    appHash := [1, 2]
    validators := some ⟨101⟩
    nextValidators := some ⟨102⟩
    lastValidators := some ⟨100⟩
    lastHeightValidatorsChanged := 1
    consensusParams := params100
    lastHeightConsensusParamsChanged := 1 }

/-- Block store of the example scenario, at height 100 (the rollback case). -/
def bs0 : BlockStore :=
  { height := 100, metas := [(99, meta99), (100, meta100)], deleteLatestResult := none }

/-- Block store at height 101 (the pending-block case for `s0`). -/
def bsPending : BlockStore :=
  { height := 101, metas := [(99, meta99), (100, meta100)], deleteLatestResult := none }

/-- Block store at height 102 (the invariant-violation case for `s0`). -/
def bsBad : BlockStore :=
  { height := 102, metas := [(99, meta99), (100, meta100)], deleteLatestResult := none }

/-- State store of the example scenario; every operation succeeds. -/
def ss0 : Store :=
  { loadResult := .ok s0
    validators := [(99, ⟨99⟩)]
    consensusParams := [(100, params100)]
    saveResult := none }

/-- A state store whose `Load` fails with an opaque collaborator error. -/
def ssLoadErr : Store :=
  { loadResult := .error (.env 3), validators := [], consensusParams := [], saveResult := none }

/-- Signing-checkpoint environment where load and reset both succeed. -/
def pvEnvOk : PrivValEnv := { loadError := none, resetError := none }

/-- Signing-checkpoint environment where `Reset` fails. -/
def pvEnvResetFail : PrivValEnv := { loadError := none, resetError := some (.env 9) }

/-- A concrete private-validator config. -/
def cfg0 : PrivValidatorConfig := { keyFile := "key.json", stateFile := "state.json" }

/-- The tail of the rollback case of `Rollback` (everything after the
rolled-back state `st` has been built: save, optional delete, optional
checkpoint reset, return), factored out so that lemmas about it can be
shared; `rollback_rollbackCase_eq` proves `Rollback` equal to it. -/
def rollbackTail (bs : BlockStore) (ss : Store) (removeBlock : Bool)
    (pv : Option PrivValidatorConfig) (pvEnv : PrivValEnv) (st : State) :
    Option RTriple × List Effect :=
  match ss.saveResult with
  | some err => (some ⟨-1, none, some (.saveFailed err)⟩, [.saveState st])
  | none =>
    if removeBlock then
      match bs.deleteLatestResult with
      | some err => (some ⟨-1, none, some (.removeFinalBlockFailed err)⟩,
                     [.saveState st, .deleteLatestBlock])
      | none =>
        match pv with
        | none => (none, [.saveState st, .deleteLatestBlock])
        | some cfg =>
          match resetPrivValidatorConfig pvEnv cfg with
          | (some err, es) =>
            (some ⟨-1, none, some err⟩, [.saveState st, .deleteLatestBlock] ++ es)
          | (none, es) =>
            (some ⟨st.lastBlockHeight, some st.appHash, none⟩,
             [.saveState st, .deleteLatestBlock] ++ es)
    else
      (some ⟨st.lastBlockHeight, some st.appHash, none⟩, [.saveState st])

/-- Claim C2: in the pending-block case (`H = S.LastBlockHeight + 1`),
`Rollback` returns `(S.LastBlockHeight, S.AppHash, nil)`; with
`removeBlock = false` no store is mutated at all, and with
`removeBlock = true` exactly one `DeleteLatestBlock` call is made and its
success leaves the same return value; the state store is never written. -/
theorem rollback_pending_case (bs : BlockStore) (ss : Store) (removeBlock : Bool)
    (pv : Option PrivValidatorConfig) (pvEnv : PrivValEnv) (s : State)
    (hload : ss.Load = .ok s) (hne : s.IsEmpty = false)
    (hh : bs.height = s.lastBlockHeight + 1) :
    (removeBlock = false →
      Rollback bs ss removeBlock pv pvEnv =
        (some ⟨s.lastBlockHeight, some s.appHash, none⟩, [])) ∧
    (removeBlock = true →
      (Rollback bs ss removeBlock pv pvEnv).2 = [Effect.deleteLatestBlock] ∧
      (bs.deleteLatestResult = none →
        Rollback bs ss removeBlock pv pvEnv =
          (some ⟨s.lastBlockHeight, some s.appHash, none⟩, [Effect.deleteLatestBlock]))) := by
  simp only [Rollback, hload, hne, hh, if_pos rfl, Bool.false_eq_true, if_false]
  constructor
  · intro hr; subst hr; rfl
  · intro hr; subst hr
    cases hd : bs.deleteLatestResult with
    | none => simp [hd]
    | some e => simp [hd]

/-- Claim C2 witness: the pending-case theorem applied to the example
scenario with block-store height 101 and `removeBlock = false`. -/
theorem rollback_pending_case_witness :
    (false = false →
      Rollback bsPending ss0 false none pvEnvOk =
        (some ⟨s0.lastBlockHeight, some s0.appHash, none⟩, [])) ∧
    (false = true →
      (Rollback bsPending ss0 false none pvEnvOk).2 = [Effect.deleteLatestBlock] ∧
      (bsPending.deleteLatestResult = none →
        Rollback bsPending ss0 false none pvEnvOk =
          (some ⟨s0.lastBlockHeight, some s0.appHash, none⟩, [Effect.deleteLatestBlock]))) :=
  rollback_pending_case bsPending ss0 false none pvEnvOk s0 rfl rfl (by decide)

/-- Claim C3: when the block-store height is neither `S.LastBlockHeight` nor
`S.LastBlockHeight + 1`, `Rollback` returns an invariant-violation error
carrying both heights, and the empty effect trace shows that neither store
is mutated. -/
theorem rollback_invariant_violation (bs : BlockStore) (ss : Store) (removeBlock : Bool)
    (pv : Option PrivValidatorConfig) (pvEnv : PrivValEnv) (s : State)
    (hload : ss.Load = .ok s) (hne : s.IsEmpty = false)
    (h1 : bs.height ≠ s.lastBlockHeight + 1) (h2 : bs.height ≠ s.lastBlockHeight) :
    Rollback bs ss removeBlock pv pvEnv =
      (some ⟨-1, none, some (.invariantViolation s.lastBlockHeight bs.height)⟩, []) := by
  simp only [Rollback, hload, hne, Bool.false_eq_true, if_false, if_neg h1, if_pos h2]

/-- Claim C3 witness: the invariant-violation theorem applied to the example
scenario with block-store height 102 against state height 100. -/
theorem rollback_invariant_violation_witness :
    Rollback bsBad ss0 true none pvEnvOk =
      (some ⟨-1, none, some (.invariantViolation s0.lastBlockHeight bsBad.height)⟩, []) :=
  rollback_invariant_violation bsBad ss0 true none pvEnvOk s0 rfl rfl
    (by decide) (by decide)

/-- Claim C8: idempotence in the pending-block case with
`removeBlock = false`: the first invocation performs no mutation (empty
effect trace), so replaying its effects leaves both stores unchanged and a
second invocation yields the identical result. -/
theorem rollback_pending_idempotent (bs : BlockStore) (ss : Store)
    (pv : Option PrivValidatorConfig) (pvEnv : PrivValEnv) (s : State)
    (hload : ss.Load = .ok s) (hne : s.IsEmpty = false)
    (hh : bs.height = s.lastBlockHeight + 1) :
    (Rollback bs ss false pv pvEnv).2 = [] ∧
    Rollback (applyEffects (Rollback bs ss false pv pvEnv).2 (bs, ss)).1
             (applyEffects (Rollback bs ss false pv pvEnv).2 (bs, ss)).2 false pv pvEnv =
      Rollback bs ss false pv pvEnv := by
  have hres : Rollback bs ss false pv pvEnv =
      (some ⟨s.lastBlockHeight, some s.appHash, none⟩, []) := by
    simp only [Rollback, hload, hne, hh, if_pos rfl, Bool.false_eq_true, if_false, if_true,
      eq_self_iff_true]
  have heff : (Rollback bs ss false pv pvEnv).2 = [] := by rw [hres]
  have happ : applyEffects (Rollback bs ss false pv pvEnv).2 (bs, ss) = (bs, ss) := by
    rw [heff]; rfl
  exact ⟨heff, by rw [happ]⟩

/-- Claim C8 witness: the idempotence theorem applied to the example
scenario in its pending-block configuration. -/
theorem rollback_pending_idempotent_witness :
    (Rollback bsPending ss0 false none pvEnvOk).2 = [] ∧
    Rollback (applyEffects (Rollback bsPending ss0 false none pvEnvOk).2 (bsPending, ss0)).1
             (applyEffects (Rollback bsPending ss0 false none pvEnvOk).2 (bsPending, ss0)).2
             false none pvEnvOk =
      Rollback bsPending ss0 false none pvEnvOk :=
  rollback_pending_idempotent bsPending ss0 none pvEnvOk s0 rfl rfl (by decide)

/-- In the rollback case (`H = S.LastBlockHeight`) with all four load
operations pinned, `Rollback` builds `mkRolledBackState` and runs the
save/delete/reset tail on it. -/
theorem rollback_rollbackCase_eq (bs : BlockStore) (ss : Store) (removeBlock : Bool)
    (pv : Option PrivValidatorConfig) (pvEnv : PrivValEnv)
    (s : State) (rb lb : BlockMeta) (vs : ValidatorSet) (ps : ConsensusParams)
    (hload : ss.Load = .ok s) (hne : s.IsEmpty = false)
    (hh : bs.height = s.lastBlockHeight)
    (hrb : bs.LoadBlockMeta (s.lastBlockHeight - 1) = some rb)
    (hlb : bs.LoadBlockMeta s.lastBlockHeight = some lb)
    (hvs : ss.LoadValidators (s.lastBlockHeight - 1) = .ok vs)
    (hps : ss.LoadConsensusParams (s.lastBlockHeight - 1 + 1) = .ok ps) :
    Rollback bs ss removeBlock pv pvEnv =
      rollbackTail bs ss removeBlock pv pvEnv (mkRolledBackState s rb lb vs ps removeBlock) := by
  have hpend : ¬ (s.lastBlockHeight = s.lastBlockHeight + 1) := by omega
  simp only [Rollback, rollbackTail, hload, hne, hh, Bool.false_eq_true, if_false,
    if_neg hpend, ne_eq, not_true_eq_false, hrb, hlb, hvs, hps]

/-- Any state recorded as saved by the rollback-case tail is `st` itself. -/
theorem rollbackTail_saved (bs : BlockStore) (ss : Store) (removeBlock : Bool)
    (pv : Option PrivValidatorConfig) (pvEnv : PrivValEnv) (st st' : State)
    (h : Effect.saveState st' ∈ (rollbackTail bs ss removeBlock pv pvEnv st).2) :
    st' = st := by
  obtain ⟨le, re⟩ := pvEnv
  unfold rollbackTail at h
  rcases pv with _ | cfg <;> rcases le with _ | e1 <;> rcases re with _ | e2 <;>
    simp only [resetPrivValidatorConfig] at h <;>
    repeat' split at h
  all_goals simp_all

/-- A no-error return of the rollback-case tail is exactly
`(st.lastBlockHeight, st.appHash, nil)`. -/
theorem rollbackTail_success (bs : BlockStore) (ss : Store) (removeBlock : Bool)
    (pv : Option PrivValidatorConfig) (pvEnv : PrivValEnv) (st : State) (t : RTriple)
    (ht : (rollbackTail bs ss removeBlock pv pvEnv st).1 = some t) (he : t.err = none) :
    t = ⟨st.lastBlockHeight, some st.appHash, none⟩ := by
  unfold rollbackTail at ht
  repeat' split at ht
  all_goals (simp at ht <;> (try subst ht) <;> simp_all)

/-- Claim C1 counterexample: in the example scenario (rollback case, all
four hash byte strings pairwise distinct) with `removeBlock = false`, the
reconstructed and returned `AppHash` is block 100's `AppHash` `[1, 2]` and
not block 100's `LastResultsHash` `[3, 4]` as the claim states: lines
123-124 of `rollback.go` assign the temporary named `rolledBackAppHash` to
the `LastResultsHash` field and `rolledBackLastResultHash` to the `AppHash`
field. -/
theorem rollback_hash_claim_counterexample :
    bs0.height = s0.lastBlockHeight ∧
    bs0.LoadBlockMeta s0.lastBlockHeight = some meta100 ∧
    meta100.header.lastResultsHash = [3, 4] ∧
    meta100.header.appHash = [1, 2] ∧
    (Rollback bs0 ss0 false none pvEnvOk).1 = some ⟨99, some [1, 2], none⟩ ∧
    (Rollback bs0 ss0 false none pvEnvOk).2 =
      [Effect.saveState (mkRolledBackState s0 meta99 meta100 ⟨99⟩ params100 false)] ∧
    (mkRolledBackState s0 meta99 meta100 ⟨99⟩ params100 false).appHash = [1, 2] ∧
    ([1, 2] : Bytes) ≠ [3, 4] := by decide

/-- Claim C1 (amended): in the rollback case, the reconstructed state's
`AppHash` (also the hash `Rollback` returns) equals `latestBlock`'s
`AppHash` when `removeBlock = false` and `rollbackBlock`'s
`LastResultsHash` when `removeBlock = true`; symmetrically the
reconstructed `LastResultsHash` equals `latestBlock`'s `LastResultsHash`
when `removeBlock = false` and `rollbackBlock`'s `AppHash` when
`removeBlock = true`. -/
theorem rollback_hash_selection (bs : BlockStore) (ss : Store) (removeBlock : Bool)
    (pv : Option PrivValidatorConfig) (pvEnv : PrivValEnv)
    (s : State) (rb lb : BlockMeta) (vs : ValidatorSet) (ps : ConsensusParams)
    (hload : ss.Load = .ok s) (hne : s.IsEmpty = false)
    (hh : bs.height = s.lastBlockHeight)
    (hrb : bs.LoadBlockMeta (s.lastBlockHeight - 1) = some rb)
    (hlb : bs.LoadBlockMeta s.lastBlockHeight = some lb)
    (hvs : ss.LoadValidators (s.lastBlockHeight - 1) = .ok vs)
    (hps : ss.LoadConsensusParams (s.lastBlockHeight - 1 + 1) = .ok ps) :
    (∀ st, Effect.saveState st ∈ (Rollback bs ss removeBlock pv pvEnv).2 →
      st.appHash = (if removeBlock then rb.header.lastResultsHash else lb.header.appHash) ∧
      st.lastResultsHash =
        (if removeBlock then rb.header.appHash else lb.header.lastResultsHash)) ∧
    (∀ t, (Rollback bs ss removeBlock pv pvEnv).1 = some t → t.err = none →
      t.appHash =
        some (if removeBlock then rb.header.lastResultsHash else lb.header.appHash)) := by
  rw [rollback_rollbackCase_eq bs ss removeBlock pv pvEnv s rb lb vs ps
    hload hne hh hrb hlb hvs hps]
  constructor
  · intro st hmem
    have hst := rollbackTail_saved _ _ _ _ _ _ _ hmem
    subst hst
    cases removeBlock <;> exact ⟨rfl, rfl⟩
  · intro t ht he
    have hts := rollbackTail_success _ _ _ _ _ _ _ ht he
    subst hts
    cases removeBlock <;> rfl

/-- Claim C1 witness: the amended hash-selection theorem applied to the
example scenario with `removeBlock = true`. -/
theorem rollback_hash_selection_witness :
    (∀ st, Effect.saveState st ∈ (Rollback bs0 ss0 true (some cfg0) pvEnvOk).2 →
      st.appHash =
        (if true then meta99.header.lastResultsHash else meta100.header.appHash) ∧
      st.lastResultsHash =
        (if true then meta99.header.appHash else meta100.header.lastResultsHash)) ∧
    (∀ t, (Rollback bs0 ss0 true (some cfg0) pvEnvOk).1 = some t → t.err = none →
      t.appHash =
        some (if true then meta99.header.lastResultsHash else meta100.header.appHash)) :=
  rollback_hash_selection bs0 ss0 true (some cfg0) pvEnvOk s0 meta99 meta100 ⟨99⟩ params100
    rfl rfl (by decide) (by decide) (by decide) (by decide) (by decide)

/-- Claim C4: in the rollback case, a no-error return of `Rollback` carries
height `S.LastBlockHeight - 1`, under the hypothesis that the block meta
loaded at the rollback height records that height (the code returns the
loaded meta's `Header.Height`). -/
theorem rollback_returned_height (bs : BlockStore) (ss : Store) (removeBlock : Bool)
    (pv : Option PrivValidatorConfig) (pvEnv : PrivValEnv)
    (s : State) (rb lb : BlockMeta) (vs : ValidatorSet) (ps : ConsensusParams)
    (hload : ss.Load = .ok s) (hne : s.IsEmpty = false)
    (hh : bs.height = s.lastBlockHeight)
    (hrb : bs.LoadBlockMeta (s.lastBlockHeight - 1) = some rb)
    (hlb : bs.LoadBlockMeta s.lastBlockHeight = some lb)
    (hvs : ss.LoadValidators (s.lastBlockHeight - 1) = .ok vs)
    (hps : ss.LoadConsensusParams (s.lastBlockHeight - 1 + 1) = .ok ps)
    (hrbh : rb.header.height = s.lastBlockHeight - 1) :
    ∀ t, (Rollback bs ss removeBlock pv pvEnv).1 = some t → t.err = none →
      t.height = s.lastBlockHeight - 1 := by
  rw [rollback_rollbackCase_eq bs ss removeBlock pv pvEnv s rb lb vs ps
    hload hne hh hrb hlb hvs hps]
  intro t ht he
  have hts := rollbackTail_success _ _ _ _ _ _ _ ht he
  subst hts
  simpa [mkRolledBackState] using hrbh

/-- Claim C4 witness: the returned-height theorem applied to the example
scenario with `removeBlock = false`, where the return triple is
`(99, [1, 2], nil)`. -/
theorem rollback_returned_height_witness :
    RTriple.height ⟨99, some [1, 2], none⟩ = s0.lastBlockHeight - 1 :=
  rollback_returned_height bs0 ss0 false none pvEnvOk s0 meta99 meta100 ⟨99⟩ params100
    rfl rfl (by decide) (by decide) (by decide) (by decide) (by decide) (by decide)
    ⟨99, some [1, 2], none⟩ (by decide) rfl

/-- Claim C5: in the rollback case, the saved reconstructed state's
`LastHeightValidatorsChanged` is `R + 1` when `S`'s value exceeds
`R = S.LastBlockHeight - 1` and `S`'s value unchanged otherwise, with the
identical rule for `LastHeightConsensusParamsChanged`; consequently (given
that the meta at `R` records height `R`) both reconstructed change heights
are at most the reconstructed `LastBlockHeight + 1` whenever the input
state satisfied that invariant. -/
theorem rollback_clamps_change_heights (bs : BlockStore) (ss : Store) (removeBlock : Bool)
    (pv : Option PrivValidatorConfig) (pvEnv : PrivValEnv)
    (s : State) (rb lb : BlockMeta) (vs : ValidatorSet) (ps : ConsensusParams)
    (hload : ss.Load = .ok s) (hne : s.IsEmpty = false)
    (hh : bs.height = s.lastBlockHeight)
    (hrb : bs.LoadBlockMeta (s.lastBlockHeight - 1) = some rb)
    (hlb : bs.LoadBlockMeta s.lastBlockHeight = some lb)
    (hvs : ss.LoadValidators (s.lastBlockHeight - 1) = .ok vs)
    (hps : ss.LoadConsensusParams (s.lastBlockHeight - 1 + 1) = .ok ps)
    (hrbh : rb.header.height = s.lastBlockHeight - 1)
    (_hinv1 : s.lastHeightValidatorsChanged ≤ s.lastBlockHeight + 1)
    (_hinv2 : s.lastHeightConsensusParamsChanged ≤ s.lastBlockHeight + 1) :
    ∀ st, Effect.saveState st ∈ (Rollback bs ss removeBlock pv pvEnv).2 →
      (st.lastHeightValidatorsChanged =
        if s.lastHeightValidatorsChanged > s.lastBlockHeight - 1
        then s.lastBlockHeight - 1 + 1 else s.lastHeightValidatorsChanged) ∧
      (st.lastHeightConsensusParamsChanged =
        if s.lastHeightConsensusParamsChanged > s.lastBlockHeight - 1
        then s.lastBlockHeight - 1 + 1 else s.lastHeightConsensusParamsChanged) ∧
      st.lastHeightValidatorsChanged ≤ st.lastBlockHeight + 1 ∧
      st.lastHeightConsensusParamsChanged ≤ st.lastBlockHeight + 1 := by
  rw [rollback_rollbackCase_eq bs ss removeBlock pv pvEnv s rb lb vs ps
    hload hne hh hrb hlb hvs hps]
  intro st hmem
  have hst := rollbackTail_saved _ _ _ _ _ _ _ hmem
  subst hst
  refine ⟨rfl, rfl, ?_, ?_⟩ <;>
    (simp only [mkRolledBackState, hrbh]; split_ifs <;> omega)

/-- Claim C5 witness: the change-height clamping theorem applied to the
example scenario with `removeBlock = false`. -/
theorem rollback_clamps_change_heights_witness :
    ((mkRolledBackState s0 meta99 meta100 ⟨99⟩ params100 false).lastHeightValidatorsChanged =
      if s0.lastHeightValidatorsChanged > s0.lastBlockHeight - 1
      then s0.lastBlockHeight - 1 + 1 else s0.lastHeightValidatorsChanged) ∧
    ((mkRolledBackState s0 meta99 meta100 ⟨99⟩ params100
        false).lastHeightConsensusParamsChanged =
      if s0.lastHeightConsensusParamsChanged > s0.lastBlockHeight - 1
      then s0.lastBlockHeight - 1 + 1 else s0.lastHeightConsensusParamsChanged) ∧
    (mkRolledBackState s0 meta99 meta100 ⟨99⟩ params100 false).lastHeightValidatorsChanged ≤
      (mkRolledBackState s0 meta99 meta100 ⟨99⟩ params100 false).lastBlockHeight + 1 ∧
    (mkRolledBackState s0 meta99 meta100 ⟨99⟩ params100
        false).lastHeightConsensusParamsChanged ≤
      (mkRolledBackState s0 meta99 meta100 ⟨99⟩ params100 false).lastBlockHeight + 1 :=
  rollback_clamps_change_heights bs0 ss0 false none pvEnvOk s0 meta99 meta100 ⟨99⟩ params100
    rfl rfl (by decide) (by decide) (by decide) (by decide) (by decide) (by decide)
    (by decide) (by decide)
    (mkRolledBackState s0 meta99 meta100 ⟨99⟩ params100 false) (by decide)

/-- Claim C6: in the rollback case, the saved reconstructed state copies
`ChainID` and `InitialHeight` from `S`; takes `LastBlockHeight`,
`LastBlockID` and `LastBlockTime` from the meta loaded at `R`; shifts the
validator triple down one step; sets `ConsensusParams` to the parameters
loaded at `R + 1`; and sets the version's application component to that
parameter record's `AppVersion`. -/
theorem rollback_reconstructed_fields (bs : BlockStore) (ss : Store) (removeBlock : Bool)
    (pv : Option PrivValidatorConfig) (pvEnv : PrivValEnv)
    (s : State) (rb lb : BlockMeta) (vs : ValidatorSet) (ps : ConsensusParams)
    (hload : ss.Load = .ok s) (hne : s.IsEmpty = false)
    (hh : bs.height = s.lastBlockHeight)
    (hrb : bs.LoadBlockMeta (s.lastBlockHeight - 1) = some rb)
    (hlb : bs.LoadBlockMeta s.lastBlockHeight = some lb)
    (hvs : ss.LoadValidators (s.lastBlockHeight - 1) = .ok vs)
    (hps : ss.LoadConsensusParams (s.lastBlockHeight - 1 + 1) = .ok ps) :
    ∀ st, Effect.saveState st ∈ (Rollback bs ss removeBlock pv pvEnv).2 →
      st.chainID = s.chainID ∧ st.initialHeight = s.initialHeight ∧
      st.lastBlockHeight = rb.header.height ∧ st.lastBlockID = rb.blockID ∧
      st.lastBlockTime = rb.header.time ∧
      st.nextValidators = s.validators ∧ st.validators = s.lastValidators ∧
      st.lastValidators = some vs ∧ st.consensusParams = ps ∧
      st.version.consensus.app = ps.version.appVersion := by
  rw [rollback_rollbackCase_eq bs ss removeBlock pv pvEnv s rb lb vs ps
    hload hne hh hrb hlb hvs hps]
  intro st hmem
  have hst := rollbackTail_saved _ _ _ _ _ _ _ hmem
  subst hst
  exact ⟨rfl, rfl, rfl, rfl, rfl, rfl, rfl, rfl, rfl, rfl⟩

/-- Claim C6 witness: the field-reconstruction theorem applied to the
example scenario with `removeBlock = true`. -/
theorem rollback_reconstructed_fields_witness :
    (mkRolledBackState s0 meta99 meta100 ⟨99⟩ params100 true).chainID = s0.chainID ∧
    (mkRolledBackState s0 meta99 meta100 ⟨99⟩ params100 true).initialHeight =
      s0.initialHeight ∧
    (mkRolledBackState s0 meta99 meta100 ⟨99⟩ params100 true).lastBlockHeight =
      meta99.header.height ∧
    (mkRolledBackState s0 meta99 meta100 ⟨99⟩ params100 true).lastBlockID = meta99.blockID ∧
    (mkRolledBackState s0 meta99 meta100 ⟨99⟩ params100 true).lastBlockTime =
      meta99.header.time ∧
    (mkRolledBackState s0 meta99 meta100 ⟨99⟩ params100 true).nextValidators =
      s0.validators ∧
    (mkRolledBackState s0 meta99 meta100 ⟨99⟩ params100 true).validators =
      s0.lastValidators ∧
    (mkRolledBackState s0 meta99 meta100 ⟨99⟩ params100 true).lastValidators =
      some ⟨99⟩ ∧
    (mkRolledBackState s0 meta99 meta100 ⟨99⟩ params100 true).consensusParams = params100 ∧
    (mkRolledBackState s0 meta99 meta100 ⟨99⟩ params100 true).version.consensus.app =
      params100.version.appVersion :=
  rollback_reconstructed_fields bs0 ss0 true (some cfg0) pvEnvOk s0 meta99 meta100 ⟨99⟩
    params100 rfl rfl (by decide) (by decide) (by decide) (by decide) (by decide)
    (mkRolledBackState s0 meta99 meta100 ⟨99⟩ params100 true) (by decide)

/-- Claim C7: in the rollback case with `removeBlock = true`, when the
state save and the block deletion both succeed but the signing-checkpoint
reset fails, `Rollback` still returns a non-nil error. -/
theorem rollback_reset_failure_error (bs : BlockStore) (ss : Store)
    (pv : Option PrivValidatorConfig) (pvEnv : PrivValEnv)
    (s : State) (rb lb : BlockMeta) (vs : ValidatorSet) (ps : ConsensusParams)
    (cfg : PrivValidatorConfig)
    (hload : ss.Load = .ok s) (hne : s.IsEmpty = false)
    (hh : bs.height = s.lastBlockHeight)
    (hrb : bs.LoadBlockMeta (s.lastBlockHeight - 1) = some rb)
    (hlb : bs.LoadBlockMeta s.lastBlockHeight = some lb)
    (hvs : ss.LoadValidators (s.lastBlockHeight - 1) = .ok vs)
    (hps : ss.LoadConsensusParams (s.lastBlockHeight - 1 + 1) = .ok ps)
    (hsave : ss.saveResult = none) (hdel : bs.deleteLatestResult = none)
    (hpv : pv = some cfg)
    (hreset : (resetPrivValidatorConfig pvEnv cfg).1 ≠ none) :
    ∃ e, (Rollback bs ss true pv pvEnv).1 = some ⟨-1, none, some e⟩ := by
  rw [rollback_rollbackCase_eq bs ss true pv pvEnv s rb lb vs ps
    hload hne hh hrb hlb hvs hps]
  subst hpv
  unfold rollbackTail
  rcases hr : resetPrivValidatorConfig pvEnv cfg with ⟨fst, es⟩
  rcases fst with _ | e
  · exact absurd (by rw [hr]) hreset
  · exact ⟨e, by simp [hsave, hdel, hr]⟩

/-- Claim C7 witness: the reset-failure theorem applied to the example
scenario with a checkpoint environment whose `Reset` fails. -/
theorem rollback_reset_failure_error_witness :
    ∃ e, (Rollback bs0 ss0 true (some cfg0) pvEnvResetFail).1 = some ⟨-1, none, some e⟩ :=
  rollback_reset_failure_error bs0 ss0 (some cfg0) pvEnvResetFail s0 meta99 meta100 ⟨99⟩
    params100 cfg0 rfl rfl (by decide) (by decide) (by decide) (by decide) (by decide)
    rfl rfl rfl (by decide)

/-- Claim C9: in the pending-block case the signing checkpoint is never
loaded or reset, even with `removeBlock = true`; and a checkpoint reset
occurs only with `removeBlock = true`, after a state save and a
latest-block deletion that both succeeded. -/
theorem rollback_checkpoint_frame (bs : BlockStore) (ss : Store) (removeBlock : Bool)
    (pv : Option PrivValidatorConfig) (pvEnv : PrivValEnv) (s : State)
    (hload : ss.Load = .ok s) :
    (bs.height = s.lastBlockHeight + 1 →
      Effect.loadPrivVal ∉ (Rollback bs ss removeBlock pv pvEnv).2 ∧
      Effect.resetPrivVal ∉ (Rollback bs ss removeBlock pv pvEnv).2) ∧
    (∀ r es, Rollback bs ss removeBlock pv pvEnv = (r, es) → Effect.resetPrivVal ∈ es →
      removeBlock = true ∧ ss.saveResult = none ∧ bs.deleteLatestResult = none ∧
      (∃ st, Effect.saveState st ∈ es) ∧ Effect.deleteLatestBlock ∈ es) := by
  constructor
  · intro hh
    have hres : (Rollback bs ss removeBlock pv pvEnv).2 = [] ∨
        (Rollback bs ss removeBlock pv pvEnv).2 = [Effect.deleteLatestBlock] := by
      simp only [Rollback, hload, hh, if_pos rfl, if_true, eq_self_iff_true]
      cases hne : s.IsEmpty
      · simp only [Bool.false_eq_true, if_false]
        cases removeBlock
        · simp
        · cases bs.deleteLatestResult <;> simp
      · simp
    rcases hres with hres | hres <;> rw [hres] <;> simp
  · intro r es heq hmem
    obtain ⟨le, re⟩ := pvEnv
    unfold Rollback at heq
    rcases pv with _ | cfg <;> rcases le with _ | e1 <;> rcases re with _ | e2 <;>
      simp only [resetPrivValidatorConfig] at heq <;>
      repeat' split at heq
    all_goals (injection heq with h1 h2; subst h1; subst h2; simp_all)

/-- Claim C9 witness: the checkpoint-frame theorem applied to the example
scenario in its pending-block configuration with `removeBlock = true`. -/
theorem rollback_checkpoint_frame_witness :
    Effect.loadPrivVal ∉ (Rollback bsPending ss0 true none pvEnvOk).2 ∧
    Effect.resetPrivVal ∉ (Rollback bsPending ss0 true none pvEnvOk).2 :=
  (rollback_checkpoint_frame bsPending ss0 true none pvEnvOk s0 rfl).1 (by decide)

/-- Claim C10: with `removeBlock = false` the `privValidatorConfig` pointer
is never dereferenced — the result is independent of it and a nil pointer
causes no panic — and every error return of `Rollback` carries height `-1`
and a nil app hash. -/
theorem rollback_nil_pv_safe_and_error_shape (bs : BlockStore) (ss : Store)
    (removeBlock : Bool) (pv : Option PrivValidatorConfig) (pvEnv : PrivValEnv) :
    (∀ pv', Rollback bs ss false pv pvEnv = Rollback bs ss false pv' pvEnv) ∧
    (Rollback bs ss false none pvEnv).1 ≠ none ∧
    (∀ t e, (Rollback bs ss removeBlock pv pvEnv).1 = some t → t.err = some e →
      t.height = -1 ∧ t.appHash = none) := by
  refine ⟨?_, ?_, ?_⟩
  · intro pv'
    unfold Rollback
    repeat' split
    all_goals (first | rfl | exact absurd ‹false = true› (by simp))
  · rcases hr : Rollback bs ss false none pvEnv with ⟨r, es⟩
    have hrn : r ≠ none := by
      unfold Rollback at hr
      simp only [resetPrivValidatorConfig] at hr
      repeat' split at hr
      all_goals
        (first
          | (injection hr with h1 h2; subst h1; simp; done)
          | exact absurd ‹false = true› (by simp))
    simpa [hr] using hrn
  · intro t e ht he
    rcases hr : Rollback bs ss removeBlock pv pvEnv with ⟨r, es⟩
    rw [hr] at ht
    have ht' : r = some t := ht
    subst ht'
    unfold Rollback at hr
    simp only [resetPrivValidatorConfig] at hr
    repeat' split at hr
    all_goals
      (injection hr with h1 h2;
       first
         | (injection h1 with h3; subst h3; exact ⟨rfl, rfl⟩)
         | (injection h1 with h3; subst h3; simp at he)
         | injection h1)

/-- Claim C10 witness: the theorem applied at a store whose `Load` fails
with an opaque error, where the returned triple is `(-1, nil, err)`. -/
theorem rollback_nil_pv_safe_witness :
    (Rollback bs0 ssLoadErr false none pvEnvOk).1 ≠ none ∧
    RTriple.height ⟨-1, none, some (.env 3)⟩ = -1 ∧
    RTriple.appHash ⟨-1, none, some (.env 3)⟩ = none :=
  ⟨(rollback_nil_pv_safe_and_error_shape bs0 ssLoadErr false none pvEnvOk).2.1,
   (rollback_nil_pv_safe_and_error_shape bs0 ssLoadErr false none pvEnvOk).2.2
     ⟨-1, none, some (.env 3)⟩ (.env 3) (by decide) rfl⟩

end SeiRollback
